import Mathlib

/-!
Verification of the single-endpoint Express service in `app.ts` against its
natural-language specification.  The application registers one route,
`app.get("/", handler)`, whose handler calls
`res.send("Hello from Express on Bun!")`; every other request falls through to
the framework's default 404 responder.  The module binds port 8000 via
`app.listen(PORT)` only under the `require.main === module` guard and exports
the app.  The repository's Dockerfile exposes port 3000 and health-checks
`http://localhost:3000/`.
-/

namespace ExpressApp

/-- An inbound HTTP request: method, path, and headers.  The handler in
`app.ts` reads none of the request beyond what routing uses (method, path). -/
structure Request where
  method : String
  path : String
  fields : List (String × String)
  deriving Repr, DecidableEq

/-- An HTTP response as observed by the tests in `app.test.ts`: status code,
body text, and the content-type header. -/
structure Response where
  status : Nat
  body : String
  contentType : String
  allow : Option String
  deriving Repr, DecidableEq

/-- The literal string sent by the route handler in `app.ts` line 7. -/
def helloBody : String := "Hello from Express on Bun!"

/-- The port hardcoded in `app.ts` line 4 (`const PORT = 8000`). -/
def PORT : Nat := 8000

/-- The content-type Express sets when `res.send` is given a string and no
content-type was set by the handler. -/
def sendStringContentType : String := "text/html; charset=utf-8"

/-- Express's default body for an unmatched route (`finalhandler`): it names
the request's method and path.  The tests only check the 404 status, so only
the shape (a function of method and path) matters. -/
def notFoundBody (method path : String) : String :=
  "Cannot " ++ method ++ " " ++ path

/-- Whether the single registered route `app.get("/")` matches a request.
Express routes registered with `app.get` match the GET method and also the
HEAD method (HEAD falls back to the GET handler when no HEAD route exists). -/
def routeMatches (req : Request) : Bool :=
  (req.method == "GET" || req.method == "HEAD") && req.path == "/"

/-- The methods the Express router reports as allowed for the root path: the
one registered GET route plus the implicit HEAD match. -/
def rootAllowedMethods : String := "GET,HEAD"

/-- The response of the app to one request.  On a match the handler runs
`res.send(helloBody)`: status 200 (the default), body the string, content-type
`text/html; charset=utf-8`; for a HEAD request Express writes the same status
and headers but no body.  An OPTIONS request to a path with at least one
matching route (here only "/") is answered by the router's automatic OPTIONS
responder: 200, an Allow header listing the allowed methods, and that list as
the body, sent through `res.send`.  Everything else reaches the framework's
404 fallthrough, whose default body names the method and path but is empty
for a HEAD request. -/
def handleRequest (req : Request) : Response :=
  if routeMatches req then
    { status := 200
      body := if req.method == "HEAD" then "" else helloBody
      contentType := sendStringContentType
      allow := none }
  else if req.method == "OPTIONS" && req.path == "/" then
    { status := 200
      body := rootAllowedMethods
      contentType := sendStringContentType
      allow := some rootAllowedMethods }
  else
    { status := 404
      body := if req.method == "HEAD" then ""
        else notFoundBody req.method req.path
      contentType := sendStringContentType
      allow := none }

/-- The app in `app.ts` declares no mutable variables: the only state the
service carries across requests is the (empty) unit state. -/
def ServerState : Type := Unit

/-- The initial state of the service after module load. -/
def initState : ServerState := ()

/-- One request-response step of the running service: the state is unchanged
(no assignment to any variable occurs in the handler) and the response is
`handleRequest`. -/
def serveStep (s : ServerState) (req : Request) : ServerState × Response :=
  (s, handleRequest req)

/-- The state of the service after serving a list of earlier requests. -/
def stateAfter (history : List Request) : ServerState :=
  history.foldl (fun s r => (serveStep s r).1) initState

/-- The response the service gives to `req` after having served `history`. -/
def respondAfter (history : List Request) (req : Request) : Response :=
  (serveStep (stateAfter history) req).2

/-- The observable effects of loading the module `app.ts`: whether
`app.listen` was called (and on which port), and that the app is exported.
The listen call sits under the `require.main === module` guard (lines 10-14);
`export default app` is line 16. -/
structure ModuleLoadResult where
  listenCalled : Bool
  boundPort : Option Nat
  exportsApp : Bool
  deriving Repr, DecidableEq

/-- Loading `app.ts`: `top` is whether the module is the top-level entry point
(`require.main === module`).  Only then is `app.listen(PORT)` executed; the
app is exported in either case. -/
def loadModule (top : Bool) : ModuleLoadResult :=
  { listenCalled := top
    boundPort := if top then some PORT else none
    exportsApp := true }

/-- The port the repository's Dockerfile exposes (`EXPOSE 3000`). -/
def dockerfileExposedPort : Nat := 3000

/-- The port the Dockerfile's HEALTHCHECK probes
(`http://localhost:3000/`). -/
def healthcheckPort : Nat := 3000

/-- Modelled from the spec: the bind step of `app.listen` lives in the
runtime's network stack, not in `app.ts`.  Per the spec, binding a port that
is already bound is a fatal error; otherwise the port becomes bound.  The
state is the set of ports currently bound, as a list. -/
def tryBind (bound : List Nat) (port : Nat) : Except String (List Nat) :=
  if port ∈ bound then Except.error "EADDRINUSE" else Except.ok (port :: bound)

/-- The outcome of one startup attempt: which ports are bound afterwards, and
the process exit code (`none` means the process keeps running). -/
structure StartOutcome where
  bound : List Nat
  exitCode : Option Nat
  deriving Repr, DecidableEq

/-- Modelled from the spec: starting the service once.  A successful bind
leaves the process running (no exit code); a failed bind is fatal, the
process exits non-zero, and the set of bound ports is unchanged (the first
instance keeps its socket). -/
def startServer (bound : List Nat) (port : Nat) : StartOutcome :=
  match tryBind bound port with
  | Except.ok b => { bound := b, exitCode := none }
  | Except.error _ => { bound := bound, exitCode := some 1 }

/-- A concrete GET "/" request with no headers. -/
def getRootReq : Request := { method := "GET", path := "/", fields := [] }

/-- A concrete GET "/" request carrying one header. -/
def getRootHdrReq : Request :=
  { method := "GET", path := "/", fields := [("x-test", "1")] }

/-- A concrete HEAD "/" request. -/
def headRootReq : Request := { method := "HEAD", path := "/", fields := [] }

/-- A concrete POST "/" request. -/
def postRootReq : Request := { method := "POST", path := "/", fields := [] }

/-- A concrete OPTIONS "/" request. -/
def optionsRootReq : Request :=
  { method := "OPTIONS", path := "/", fields := [] }

/-- A concrete GET "/nonexistent" request (the spec's 404 example). -/
def getMissingReq : Request :=
  { method := "GET", path := "/nonexistent", fields := [] }

/-- A concrete POST "/x" request, used as an unrelated earlier request. -/
def postOtherReq : Request := { method := "POST", path := "/x", fields := [] }

/-- C1: every request with method GET and path "/" receives status 200,
whatever its headers. -/
theorem C1_root_get_status (req : Request) (hm : req.method = "GET")
    (hp : req.path = "/") : (handleRequest req).status = 200 := by
  simp [handleRequest, routeMatches, hm, hp]

/-- Witness for C1 at a concrete GET "/" request carrying a header. -/
theorem C1_root_get_status_witness :
    (handleRequest getRootHdrReq).status = 200 :=
  C1_root_get_status getRootHdrReq rfl rfl

/-- C2: the body of the response to GET "/" is exactly the literal
"Hello from Express on Bun!", with nothing appended. -/
theorem C2_root_get_body (req : Request) (hm : req.method = "GET")
    (hp : req.path = "/") :
    (handleRequest req).body = "Hello from Express on Bun!" := by
  simp [handleRequest, routeMatches, hm, hp, helloBody]

/-- Witness for C2 at a concrete GET "/" request. -/
theorem C2_root_get_body_witness :
    (handleRequest getRootReq).body = "Hello from Express on Bun!" :=
  C2_root_get_body getRootReq rfl rfl

/-- Counterexample to C3 as stated: both HEAD "/" and OPTIONS "/" have a
method other than GET, yet each gets status 200, not 404 (the `app.get`
route also matches HEAD, and the router answers OPTIONS automatically). -/
theorem C3_counterexample :
    (headRootReq.method ≠ "GET" ∧ (handleRequest headRootReq).status ≠ 404) ∧
      (optionsRootReq.method ≠ "GET" ∧
        (handleRequest optionsRootReq).status ≠ 404) :=
  ⟨⟨by decide, by decide⟩, ⟨by decide, by decide⟩⟩

/-- C3 (amended): every request whose path is not "/" or whose method is none
of GET, HEAD and OPTIONS receives status 404 with the implementation-default
not-found body, which is empty for a HEAD request. -/
theorem C3_fallthrough_404 (req : Request)
    (h : req.path ≠ "/" ∨
      (req.method ≠ "GET" ∧ req.method ≠ "HEAD" ∧ req.method ≠ "OPTIONS")) :
    (handleRequest req).status = 404 ∧
      (handleRequest req).body =
        (if req.method == "HEAD" then ""
          else notFoundBody req.method req.path) := by
  have hf : routeMatches req = false := by
    rcases h with h | ⟨h1, h2, h3⟩
    · simp [routeMatches, h]
    · simp [routeMatches, h1, h2]
  have ho : (req.method == "OPTIONS" && req.path == "/") = false := by
    rcases h with h | ⟨h1, h2, h3⟩
    · simp [h]
    · simp [h3]
  simp [handleRequest, hf, ho]

/-- Witness for amended C3 at the spec's example GET "/nonexistent". -/
theorem C3_fallthrough_404_witness :
    (handleRequest getMissingReq).status = 404 ∧
      (handleRequest getMissingReq).body =
        (if getMissingReq.method == "HEAD" then ""
          else notFoundBody getMissingReq.method getMissingReq.path) :=
  C3_fallthrough_404 getMissingReq (Or.inl (by decide))

/-- Counterexample to C4 as stated: a POST request to "/" is answered with
status 404, not 200 (only `app.get` is registered, so only GET and HEAD
match the root route). -/
theorem C4_counterexample :
    (handleRequest postRootReq).status ≠ 200 ∧
      (handleRequest postRootReq).status = 404 :=
  ⟨by decide, by decide⟩

/-- C4 (amended): every request to "/" whose method is GET or HEAD, with any
headers, receives status 200; the body is the literal string for GET and
empty for HEAD. -/
theorem C4_root_matched_methods (req : Request) (hp : req.path = "/")
    (hm : req.method = "GET" ∨ req.method = "HEAD") :
    (handleRequest req).status = 200 ∧
      (handleRequest req).body =
        (if req.method == "HEAD" then "" else helloBody) := by
  rcases hm with h | h <;> simp [handleRequest, routeMatches, hp, h]

/-- Witness for amended C4 at a concrete HEAD "/" request. -/
theorem C4_root_matched_methods_witness :
    (handleRequest headRootReq).status = 200 ∧
      (handleRequest headRootReq).body =
        (if headRootReq.method == "HEAD" then "" else helloBody) :=
  C4_root_matched_methods headRootReq rfl (Or.inr rfl)

/-- C5: the response to GET "/" is a constant of the service: after any two
request histories and with any two header lists, two GET "/" requests get
identical responses (same status, body and content type); the service state
is unit, so nothing accumulates between requests. -/
theorem C5_root_response_constant (h1 h2 : List Request) (r1 r2 : Request)
    (hm1 : r1.method = "GET") (hp1 : r1.path = "/")
    (hm2 : r2.method = "GET") (hp2 : r2.path = "/") :
    respondAfter h1 r1 = respondAfter h2 r2 := by
  simp [respondAfter, serveStep, handleRequest, routeMatches,
    hm1, hp1, hm2, hp2]

/-- Witness for C5: a GET "/" after an unrelated POST, with a header, equals
a fresh GET "/" with no headers. -/
theorem C5_root_response_constant_witness :
    respondAfter [postOtherReq] getRootHdrReq =
      respondAfter [] getRootReq :=
  C5_root_response_constant [postOtherReq] [] getRootHdrReq getRootReq
    rfl rfl rfl rfl

/-- C6: loading the module calls `app.listen` (binding the port) exactly when
the module is the top-level entry point; a load by a test harness binds no
port, and the app is exported in every case. -/
theorem C6_entry_point_guard (top : Bool) :
    ((loadModule top).listenCalled = true ↔ top = true) ∧
      ((loadModule top).boundPort = if top then some PORT else none) ∧
      (loadModule false).boundPort = none ∧
      (loadModule top).exportsApp = true := by
  cases top <;> simp [loadModule]

/-- C7: the content-type of the GET "/" response is the framework default for
a string body, `text/html; charset=utf-8`, which begins with `text/html`. -/
theorem C7_root_content_type (req : Request) (hm : req.method = "GET")
    (hp : req.path = "/") :
    (handleRequest req).contentType = "text/html; charset=utf-8" ∧
      "text/html".data.isPrefixOf (handleRequest req).contentType.data
        = true := by
  have hr : (handleRequest req).contentType = "text/html; charset=utf-8" := by
    simp [handleRequest, routeMatches, hm, hp, sendStringContentType]
  exact ⟨hr, by rw [hr]; decide⟩

/-- Witness for C7 at a concrete GET "/" request. -/
theorem C7_root_content_type_witness :
    (handleRequest getRootReq).contentType = "text/html; charset=utf-8" ∧
      "text/html".data.isPrefixOf (handleRequest getRootReq).contentType.data
        = true :=
  C7_root_content_type getRootReq rfl rfl

/-- C8: the application code binds the hardcoded port 8000, while the
repository's Dockerfile exposes and health-checks port 3000; the two values
disagree. -/
theorem C8_port_inconsistency :
    PORT = 8000 ∧ dockerfileExposedPort = 3000 ∧ healthcheckPort = 3000 ∧
      PORT ≠ dockerfileExposedPort ∧ PORT ≠ healthcheckPort :=
  ⟨rfl, rfl, rfl, by decide, by decide⟩

/-- C9: starting the service on a free port succeeds; a second start on the
same port fails fatally with a non-zero exit code and leaves the first
instance's binding (and hence its serving) untouched. -/
theorem C9_second_bind_fails (p : Nat) :
    (startServer [] p).exitCode = none ∧
      p ∈ (startServer [] p).bound ∧
      (startServer (startServer [] p).bound p).exitCode = some 1 ∧
      (startServer (startServer [] p).bound p).bound =
        (startServer [] p).bound := by
  simp [startServer, tryBind]

/-- C10: a HEAD request to "/" is matched by the `app.get` route: it receives
status 200 (not the 404 of other non-GET methods), the same status and
content-type as GET "/", and an empty body. -/
theorem C10_head_root (req : Request) (hm : req.method = "HEAD")
    (hp : req.path = "/") :
    (handleRequest req).status = 200 ∧
      (handleRequest req).body = "" ∧
      (handleRequest req).contentType =
        (handleRequest getRootReq).contentType := by
  refine ⟨?_, ?_, ?_⟩ <;>
    simp [handleRequest, routeMatches, hm, hp, getRootReq]

/-- Witness for C10 at a concrete HEAD "/" request. -/
theorem C10_head_root_witness :
    (handleRequest headRootReq).status = 200 ∧
      (handleRequest headRootReq).body = "" ∧
      (handleRequest headRootReq).contentType =
        (handleRequest getRootReq).contentType :=
  C10_head_root headRootReq rfl rfl

end ExpressApp
